import Mathlib

/-!
Verification development for the dd-agent service-discovery core
(src/utils/service_discovery/sd_backend.py and config_stores.py).

The Python code is shallowly embedded: dict values are modelled by the
inductive type `JVal`; Python exceptions are modelled by the `Except PyExn`
monad; external collaborators (docker client, etcd/consul clients, the
kubelet pod-list endpoint, the auto-config catalog loader) are passed in
as explicit parameters, in line with the spec's collaborator boundaries.
-/

/-- Python exceptions that the embedded code can raise. -/
inductive PyExn where
  | attributeError
  | indexError
deriving DecidableEq

/-- Errors raised by a config-store `client_read`: `KeyNotFound`,
`urllib3 TimeoutError`, or any other exception. -/
inductive StoreErr where
  | keyNotFound
  | timeoutError
  | otherError
deriving DecidableEq

/-- Outcome of one `client_read` call against the backing store. -/
inductive ReadOutcome where
  | ok (v : String)
  | keyNotFound
  | timeoutError
  | otherError
deriving DecidableEq

/-- First-match association-list lookup, the model of Python `dict.get` /
`dict[...]` (dictionaries are encoded as association lists with unique keys). -/
def assocLookup {β : Type} : List (String × β) → String → Option β
  | [], _ => none
  | (k, v) :: rest, key => if k = key then some v else assocLookup rest key

/-- Insert with overwrite, the model of Python `dict` assignment while a
comprehension builds a dictionary (later bindings overwrite earlier ones). -/
def dictInsert {β : Type} : List (String × β) → String → β → List (String × β)
  | [], k, v => [(k, v)]
  | (k', v') :: rest, k, v =>
    if k' = k then (k', v) :: rest else (k', v') :: dictInsert rest k v

/-- Model of the body of a lazy `.+?` match: the shortest nonempty run of
non-newline characters followed by a closing `%%`.  Returns the body and the
characters after the closing delimiter. -/
def grabBody : List Char → Option (List Char × List Char)
  | [] => none
  | c :: rest =>
    if c = '\n' then none
    else
      match rest with
      | '%' :: '%' :: rest2 => some ([c], rest2)
      | _ =>
        match grabBody rest with
        | some (body, rest2) => some (c :: body, rest2)
        | none => none

/-- One left-to-right scan of `re.findall(r'%%.+?%%', s)`: on an opening
`%%` with no closing delimiter the scan restarts one character later, as the
regex engine does.  The `fuel` argument only bounds recursion; it is called
with the length of the list, which the scan never consumes faster than one
character per step. -/
def scanPHFuel : Nat → List Char → List String
  | 0, _ => []
  | _ + 1, [] => []
  | fuel + 1, c :: rest =>
    match c, rest with
    | '%', '%' :: rest2 =>
      (match grabBody rest2 with
       | some (body, rest3) =>
         ("%%" ++ String.mk body ++ "%%") :: scanPHFuel fuel rest3
       | none => scanPHFuel fuel rest)
    | _, _ => scanPHFuel fuel rest

/-- Model of `PLACEHOLDER_REGEX.findall(s)` with `PLACEHOLDER_REGEX =
re.compile(r'%%.+?%%')`. -/
def findPlaceholders (s : String) : List String :=
  scanPHFuel s.data.length s.data

/-- Model of Python `s.strip('%')`: remove every leading and trailing `%`. -/
def stripPercents (s : String) : String :=
  String.mk (((s.data.dropWhile (· = '%')).reverse.dropWhile (· = '%')).reverse)

/-- Model of Python `s.replace(old, new)`: replace every non-overlapping
occurrence, scanning left to right.  `fuel` bounds recursion and is called
with the length of the scanned list. -/
def replaceFuel (pat rep : List Char) : Nat → List Char → List Char
  | 0, l => l
  | _ + 1, [] => []
  | fuel + 1, c :: rest =>
    if pat ≠ [] ∧ pat.isPrefixOf (c :: rest) then
      rep ++ replaceFuel pat rep fuel ((c :: rest).drop pat.length)
    else
      c :: replaceFuel pat rep fuel rest

/-- Model of Python `str.replace` (all occurrences). -/
def pyReplace (s old new : String) : String :=
  String.mk (replaceFuel old.data new.data s.data.length s.data)

/-- Model of Python `s.startswith(p)`. -/
def pyStartsWith (s p : String) : Bool :=
  p.data.isPrefixOf s.data

/-- Model of Python `s.endswith(p)`. -/
def pyEndsWith (s p : String) : Bool :=
  p.data.isSuffixOf s.data

/-- Scanner for Python `s.split(sep)` with a nonempty separator: cut at
every left-to-right non-overlapping occurrence.  `acc` holds the current
piece reversed; `fuel` bounds recursion and is called with the length of
the scanned list. -/
def splitFuel (sep : List Char) : Nat → List Char → List Char → List (List Char)
  | 0, acc, l => [acc.reverse ++ l]
  | _ + 1, acc, [] => [acc.reverse]
  | fuel + 1, acc, c :: rest =>
    if sep ≠ [] ∧ sep.isPrefixOf (c :: rest) then
      acc.reverse :: splitFuel sep fuel [] ((c :: rest).drop sep.length)
    else
      splitFuel sep fuel (c :: acc) rest

/-- Model of Python `s.split(sep)` for a nonempty separator. -/
def pySplit (s sep : String) : List String :=
  (splitFuel sep.data s.data.length [] s.data).map String.mk

/-- JSON-like values, the model of the Python objects stored in the template
dictionaries (the result of `json.loads` on a template string). -/
inductive JVal where
  | str : String → JVal
  | num : Int → JVal
  | arr : List JVal → JVal
  | obj : List (String × JVal) → JVal

/-- The single-quote character, Python `repr`'s default string delimiter. -/
def squoteChar : Char := Char.ofNat 39

/-- The double-quote character. -/
def dquoteChar : Char := Char.ofNat 34

/-- The backslash character. -/
def bslashChar : Char := Char.ofNat 92

/-- Lowercase hexadecimal digit for a value below 16. -/
def hexDigit (n : Nat) : Char :=
  if n < 10 then Char.ofNat (48 + n) else Char.ofNat (87 + n)

/-- Python 2 `repr` escaping of one character of a byte string, `q` being
the chosen quote delimiter: the backslash, the delimiter, newline,
carriage return and tab become two-character escapes, printable ASCII is
kept verbatim, and every other character becomes a `\xhh` escape (each
`Char` models one byte of the Python 2 `str`). -/
def pyReprEscChar (q c : Char) : List Char :=
  if c = bslashChar then [bslashChar, bslashChar]
  else if c = q then [bslashChar, q]
  else if c = '\n' then [bslashChar, 'n']
  else if c = '\r' then [bslashChar, 'r']
  else if c = '\t' then [bslashChar, 't']
  else if 32 ≤ c.toNat ∧ c.toNat < 127 then [c]
  else [bslashChar, 'x', hexDigit (c.toNat % 256 / 16), hexDigit (c.toNat % 256 % 16)]

/-- Model of Python 2 `repr` of a string: double-quote delimiters exactly
when the string contains a single quote but no double quote, otherwise
single-quote delimiters; the contents are escaped by `pyReprEscChar`, so
a placeholder spanning escaped characters is visible to the regex scan
exactly as it is in Python. -/
def pyReprStr (s : String) : String :=
  if s.data.contains squoteChar && !(s.data.contains dquoteChar) then
    String.mk (dquoteChar :: ((s.data.map (pyReprEscChar dquoteChar)).flatten ++ [dquoteChar]))
  else
    String.mk (squoteChar :: ((s.data.map (pyReprEscChar squoteChar)).flatten ++ [squoteChar]))

mutual

/-- Model of Python `repr` of a JSON-like value (strings escaped and
quoted per `pyReprStr`, as Python 2 `repr` does). -/
def pyRepr : JVal → String
  | .str s => pyReprStr s
  | .num n => toString n
  | .arr xs => "[" ++ pyReprList xs ++ "]"
  | .obj fs => "\x7b" ++ pyReprObj fs ++ "\x7d"

/-- Comma-joined `repr` of list elements. -/
def pyReprList : List JVal → String
  | [] => ""
  | [x] => pyRepr x
  | x :: y :: xs => pyRepr x ++ ", " ++ pyReprList (y :: xs)

/-- Comma-joined `repr` of dict items (keys are strings, escaped like any
other string). -/
def pyReprObj : List (String × JVal) → String
  | [] => ""
  | [(k, v)] => pyReprStr k ++ ": " ++ pyRepr v
  | (k, v) :: f :: fs => pyReprStr k ++ ": " ++ pyRepr v ++ ", " ++ pyReprObj (f :: fs)

end

/-- Model of Python `str(v)`: a string is itself, anything else its `repr`. -/
def pyStr : JVal → String
  | .str s => s
  | v => pyRepr v

mutual

/-- Model of `json.dumps` on a JSON-like value (string escaping elided). -/
def jsonDumps : JVal → String
  | .str s => "\"" ++ s ++ "\""
  | .num n => toString n
  | .arr xs => "[" ++ jsonDumpsList xs ++ "]"
  | .obj fs => "\x7b" ++ jsonDumpsObj fs ++ "\x7d"

/-- Comma-joined `json.dumps` of list elements. -/
def jsonDumpsList : List JVal → String
  | [] => ""
  | [x] => jsonDumps x
  | x :: y :: xs => jsonDumps x ++ ", " ++ jsonDumpsList (y :: xs)

/-- Comma-joined `json.dumps` of dict items. -/
def jsonDumpsObj : List (String × JVal) → String
  | [] => ""
  | [(k, v)] => "\"" ++ k ++ "\": " ++ jsonDumps v
  | (k, v) :: f :: fs => "\"" ++ k ++ "\": " ++ jsonDumps v ++ ", " ++ jsonDumpsObj (f :: fs)

end

/-- A template dictionary: the model of a Python dict of template fields. -/
abbrev JObj := List (String × JVal)

/-- The variable set built for one container: Python `var_values`, a dict
whose values are the extractor results (possibly `None`). -/
abbrev VarSet := List (String × Option String)

/-- Model of the truthiness test `var.strip('%') in variables and
variables[var.strip('%')]`: the name is present and bound to a nonempty
string. -/
def resolveVar (vars : VarSet) (name : String) : Option String :=
  match assocLookup vars name with
  | some (some s) => if s = "" then none else some s
  | _ => none

/-- Model of the attribute access `v.replace(old, new)` on a template value:
defined on strings, raising `AttributeError` on every other value. -/
def jreplace : JVal → String → String → Except PyExn JVal
  | .str s, old, new => .ok (.str (pyReplace s old new))
  | _, _, _ => .error .attributeError

/-- The inner loop of `ServiceDiscoveryBackend._render_template` for one
field: iterate the placeholder tokens found (once, upfront) in the field's
string form.  A resolvable token is substituted in place; an unresolvable
token logs a warning (collected here as the field name) and evaluates
`tpl[key].replace(var, '')` WITHOUT assigning the result back — the
source's no-op statement, modelled by discarding the call's value while
keeping its possible exception. -/
def renderLoop (vars : VarSet) (key : String) :
    List String → JVal → List String → Except PyExn (JVal × List String)
  | [], v, ws => .ok (v, ws)
  | tok :: rest, v, ws =>
    match resolveVar vars (stripPercents tok) with
    | some val =>
      match jreplace v tok val with
      | .ok v' => renderLoop vars key rest v' ws
      | .error e => .error e
    | none =>
      match jreplace v tok "" with
      | .ok _ => renderLoop vars key rest v (ws ++ [key])
      | .error e => .error e

/-- Render every field of one template dict (`for key in tpl` in the
source), returning the final state of the dict together with the warnings
emitted. -/
def renderTpl (vars : VarSet) : JObj → Except PyExn (JObj × List String)
  | [] => .ok ([], [])
  | (k, v) :: rest =>
    match renderLoop vars k (findPlaceholders (pyStr v)) v [] with
    | .error e => .error e
    | .ok (v', ws1) =>
      match renderTpl vars rest with
      | .error e => .error e
      | .ok (rest', ws2) => .ok ((k, v') :: rest', ws1 ++ ws2)

/-- Embeds `ServiceDiscoveryBackend._render_template(init_config_tpl,
instance_tpl, variables)`.  The source mutates the two dicts in place and
returns `[init_config_tpl, instance_tpl]`; the embedding returns the final
state of both dicts (which in Python alias the arguments), plus the warning
log. -/
def render_template (init_config_tpl instance_tpl : JObj) (vars : VarSet) :
    Except PyExn (JObj × JObj × List String) :=
  match renderTpl vars init_config_tpl with
  | .error e => .error e
  | .ok (i, w1) =>
    match renderTpl vars instance_tpl with
    | .error e => .error e
    | .ok (t, w2) => .ok (i, t, w1 ++ w2)

/-- Model of `os.path.join` for the two-argument relative cases the source
uses (an absolute second component resets the path, as in Python). -/
def pathJoin (a b : String) : String :=
  if pyStartsWith b "/" then b
  else if a = "" then b
  else if pyEndsWith a "/" then a ++ b
  else a ++ "/" ++ b

/-- Model of `s.lstrip('/')`. -/
def lstripSlash (s : String) : String :=
  String.mk (s.data.dropWhile (· = '/'))

/-- The store key for one template leaf:
`path.join(sd_template_dir, image, leaf).lstrip('/')`. -/
def tplKey (dir image leaf : String) : String :=
  lstripSlash (pathJoin (pathJoin dir image) leaf)

/-- View one `client_read` outcome as a value or a raised error. -/
def readToExcept : ReadOutcome → Except StoreErr String
  | .ok v => .ok v
  | .keyNotFound => .error .keyNotFound
  | .timeoutError => .error .timeoutError
  | .otherError => .error .otherError

/-- The `try` block of `ConfigStore.get_check_tpl`: read the three per-image
keys in order (`check_name`, `init_config`, `instance`), stopping at the
first raised error.  Also returns the list of keys actually read, to make
"the store was read" observable. -/
def tryReadTpl (store : String → ReadOutcome) (dir image : String) :
    Except StoreErr (String × String × String) × List String :=
  let k1 := tplKey dir image "check_name"
  match readToExcept (store k1) with
  | .error e => (.error e, [k1])
  | .ok cn =>
    let k2 := tplKey dir image "init_config"
    match readToExcept (store k2) with
    | .error e => (.error e, [k1, k2])
    | .ok ic =>
      let k3 := tplKey dir image "instance"
      match readToExcept (store k3) with
      | .error e => (.error e, [k1, k2, k3])
      | .ok it => (.ok (cn, ic, it), [k1, k2, k3])

/-- The auto-config collaborator boundary: `get_check_class` (modelled by
whether a check class exists for a name) and `get_auto_conf` (modelled as a
record with the `init_config` entry, absent meaning `None`, and the
`instances` list, a list per the collaborator contract). -/
structure AutoConfTpl where
  init_config : Option JVal
  instances : List JVal

/-- The catalog collaborators used by `ConfigStore._get_auto_config`. -/
structure Catalog where
  checkClass : String → Bool
  autoConf : String → AutoConfTpl

/-- The `AUTO_CONF_IMAGES` constant of config_stores.py. -/
def AUTO_CONF_IMAGES : List (String × String) :=
  [("redis", "redisdb"), ("nginx", "nginx"),
   ("consul", "consul"), ("elasticsearch", "elastic")]

/-- `json.dumps` of an optional value (`json.dumps(None) = "null"`). -/
def dumpsOpt : Option JVal → String
  | none => "null"
  | some v => jsonDumps v

/-- Embeds `ConfigStore._get_auto_config(image_name)`: scan
`AUTO_CONF_IMAGES` for the image, give up (`None`) when the image is
unknown or no check class exists, otherwise stringify the auto-conf
`init_config` and first instance.  `auto_conf.get('instances')[0]` raises
`IndexError` when the instances list is empty. -/
def get_auto_config (cat : Catalog) (image : String) :
    Except PyExn (Option (String × String × String)) :=
  match assocLookup AUTO_CONF_IMAGES image with
  | none => .ok none
  | some check_name =>
    if cat.checkClass check_name then
      match (cat.autoConf check_name).instances with
      | [] => .error .indexError
      | inst0 :: _ =>
        .ok (some (check_name,
                   dumpsOpt (cat.autoConf check_name).init_config,
                   jsonDumps inst0))
    else .ok none

/-- Embeds `ConfigStore.get_check_tpl(image, auto_conf=...)`.  With
`auto_conf` true the store is skipped and the catalog queried directly.
Otherwise the three keys are read; `KeyNotFound` and `TimeoutError` fall
back to the catalog, any other exception is swallowed by the bare
`except Exception` and yields `None`.  The second component records the
store keys read. -/
def get_check_tpl (store : String → ReadOutcome) (cat : Catalog)
    (dir image : String) (auto_conf : Bool) :
    Except PyExn (Option (String × String × String)) × List String :=
  if auto_conf then
    (get_auto_config cat image, [])
  else
    let (r, reads) := tryReadTpl store dir image
    (match r with
     | .ok t => .ok (some t)
     | .error .keyNotFound => get_auto_config cat image
     | .error .timeoutError => get_auto_config cat image
     | .error .otherError => .ok none,
     reads)

/-- The `'Config'` sub-object of a docker inspect result, as used by
`SDDockerBackend._get_config_space`. -/
structure ContainerConfig where
  Env : List String
  Labels : List (String × String)

/-- One step of the env dict comprehension in `_get_config_space`: skip the
entry when `v.split("=")[0]` does not start with `datadog_`; otherwise the
key is `v.split("=")[0].split("datadog_")[1]` (always defined, since the
separator occurs) and the value is `v.split("=")[1]`, which raises
`IndexError` when the entry has no `=`. -/
def parseEnvEntry (v : String) : Option (Except PyExn (String × String)) :=
  let parts := pySplit v "="
  let keyRaw := parts.headD ""
  if pyStartsWith keyRaw "datadog_" then
    some (match parts.get? 1 with
          | some val => .ok (((pySplit keyRaw "datadog_").get? 1).getD "", val)
          | none => .error .indexError)
  else none

/-- Left fold of the env dict comprehension: entries are processed in list
order, the first bad entry raises, later entries overwrite earlier ones. -/
def buildEnvVarsAux : List String → List (String × String) →
    Except PyExn (List (String × String))
  | [], acc => .ok acc
  | v :: rest, acc =>
    match parseEnvEntry v with
    | none => buildEnvVarsAux rest acc
    | some (.error e) => .error e
    | some (.ok (k, val)) => buildEnvVarsAux rest (dictInsert acc k val)

/-- The env dict comprehension of `_get_config_space`. -/
def buildEnvVars (env : List String) : Except PyExn (List (String × String)) :=
  buildEnvVarsAux env []

/-- Left fold of the labels dict comprehension. -/
def buildLabelVarsAux : List (String × String) → List (String × String) →
    List (String × String)
  | [], acc => acc
  | (k, v) :: rest, acc =>
    if pyStartsWith k "datadog_" then
      buildLabelVarsAux rest (dictInsert acc (((pySplit k "datadog_").get? 1).getD "") v)
    else buildLabelVarsAux rest acc

/-- The labels dict comprehension of `_get_config_space`:
`k.split('datadog_')[1]` for label keys starting with `datadog_` (the index
is always defined since the separator occurs). -/
def buildLabelVars (labels : List (String × String)) : List (String × String) :=
  buildLabelVarsAux labels []

/-- Embeds `SDDockerBackend._get_config_space(container_conf)`: build both
override dicts (the env comprehension may raise `IndexError`), then prefer
the env dict when it carries a `check_name`, else the labels dict when it
does, else `None`. -/
def get_config_space (conf : ContainerConfig) :
    Except PyExn (Option (List (String × String))) :=
  match buildEnvVars conf.Env with
  | .error e => .error e
  | .ok env_variables =>
    let labels := buildLabelVars conf.Labels
    if (assocLookup env_variables "check_name").isSome then
      .ok (some env_variables)
    else if (assocLookup labels "check_name").isSome then
      .ok (some labels)
    else
      .ok none

/-- Embeds `SDDockerBackend._get_explicit_variable(container_inspect, var)`:
`conf.get(var)` on the selected config space, the implicit `None` when no
space exists. -/
def get_explicit_variable (conf : ContainerConfig) (var : String) :
    Except PyExn (Option String) :=
  match get_config_space conf with
  | .error e => .error e
  | .ok (some space) => .ok (assocLookup space var)
  | .ok none => .ok none

/-- One entry of a pod's `status.containerStatuses`;
`status.get('containerID', '')` is modelled with `none` for an absent key. -/
structure ContainerStatus where
  containerID : Option String

/-- The expression `status.get('containerID', '').split('//')[1]`: raises
`IndexError` when the (possibly defaulted) id contains no `//`.  Modelled
as `none` for the raising case. -/
def statusCid (st : ContainerStatus) : Option String :=
  (pySplit (st.containerID.getD "") "//").get? 1

/-- A pod's `status` sub-object: `status.get('podIP')` and
`status.get('containerStatuses', [])`. -/
structure PodStatus where
  podIP : Option String
  containerStatuses : List ContainerStatus

/-- One entry of the kubelet pod list's `items`. -/
structure Pod where
  status : PodStatus

/-- The kubelet pod-list document (`pod_list.get('items', [])`). -/
structure PodList where
  items : List Pod

/-- The parts of a docker inspect object that `_get_host` reads:
`container_inspect.get('NetworkSettings', {}).get('IPAddress')` and
`container_inspect.get('Id')`. -/
structure InspectInfo where
  networkIP : Option String
  cid : Option String

/-- Python truthiness of an optional string (`None` and `''` are falsy). -/
def pyTruthy : Option String → Bool
  | none => false
  | some s => !(s == "")

/-- The inner loop of `_get_host` over one pod's container statuses:
every status is compared (no break), a match overwrites `ip_addr` with the
pod's IP; a malformed container id raises `IndexError`. -/
def scanStatuses (cid : Option String) (podIp : String) :
    List ContainerStatus → Option String → Except PyExn (Option String)
  | [], acc => .ok acc
  | st :: rest, acc =>
    match statusCid st with
    | none => .error .indexError
    | some s =>
      scanStatuses cid podIp rest (if cid = some s then some podIp else acc)

/-- The outer loop of `_get_host` over the pod list: pods without a
`podIP` are skipped, others have their statuses scanned, threading
`ip_addr`. -/
def getHostPods (cid : Option String) :
    List Pod → Option String → Except PyExn (Option String)
  | [], acc => .ok acc
  | pod :: rest, acc =>
    match pod.status.podIP with
    | none => getHostPods cid rest acc
    | some podIp =>
      match scanStatuses cid podIp pod.status.containerStatuses acc with
      | .error e => .error e
      | .ok acc' => getHostPods cid rest acc'

/-- Embeds `SDDockerBackend._get_host(container_inspect)`.  A truthy
`NetworkSettings.IPAddress` is returned directly; otherwise the kubelet
pod list (an external collaborator, passed in) is scanned for a pod whose
container statuses mention this container's id.  The default-router lookup,
kubernetes check config read and HTTP call that produce `pod_list` are
external reads, abstracted by the `podList` parameter. -/
def get_host (inspect : InspectInfo) (podList : PodList) :
    Except PyExn (Option String) :=
  let ip_addr := inspect.networkIP
  if pyTruthy ip_addr then .ok ip_addr
  else getHostPods inspect.cid podList.items ip_addr

/-- One entry of `docker_client.containers()`, restricted to the keys
`get_configs` reads. -/
structure DockerContainer where
  image : String
  id : String
  labels : List (String × String)

/-- The expression `container.get('Image').split(':')[0]` (tag stripped). -/
def imageName (c : DockerContainer) : String :=
  (pySplit c.image ":").headD ""

/-- A `(check_name, init_config, instance)` triple as returned by
`_get_check_config`.  The aggregation loop is polymorphic in the two
config payload types; equality on init configs models the `!=` test. -/
abbrev Conf (I J : Type) := String × I × J

/-- The in-place `configs[check_name][1].append(conf[2])`: in value
semantics, the entry with the given check name gets the instance appended
to its list (entries are keyed uniquely, other entries are untouched). -/
def appendInst {I J : Type} (cn : String) (inst : J) :
    List (String × I × List J) → List (String × I × List J)
  | [] => []
  | e :: rest =>
    (if e.1 = cn then (e.1, e.2.1, e.2.2 ++ [inst]) else e) :: appendInst cn inst rest

/-- One step of the accumulation in `get_configs`: a fresh check name seeds
`(init_config, [instance])`; an existing one gets the instance appended and
a warning (recorded as the check name) when the init configs differ. -/
def addConf {I J : Type} [DecidableEq I]
    (acc : List (String × I × List J) × List String) (c : Conf I J) :
    List (String × I × List J) × List String :=
  match assocLookup acc.1 c.1 with
  | none => (acc.1 ++ [(c.1, c.2.1, [c.2.2])], acc.2)
  | some (ic0, _) =>
    (appendInst c.1 c.2.2 acc.1,
     if ic0 = c.2.1 then acc.2 else acc.2 ++ [c.1])

/-- The loop of `get_configs` over the container list.  `confOf` stands for
`self._get_check_config(c_id, image)`, which touches the docker client, the
config store and the variable extractors and may raise; an exception
propagates out of the loop unhandled, exactly as in the source. -/
def getConfigsAux {I J : Type} [DecidableEq I]
    (confOf : String → String → Except PyExn (Option (Conf I J))) :
    List DockerContainer → List (String × I × List J) × List String →
    Except PyExn (List (String × I × List J) × List String)
  | [], acc => .ok acc
  | c :: rest, acc =>
    match confOf c.id (imageName c) with
    | .error e => .error e
    | .ok none => getConfigsAux confOf rest acc
    | .ok (some conf) => getConfigsAux confOf rest (addConf acc conf)

/-- Embeds `SDDockerBackend.get_configs()`: iterate the running containers
and aggregate per-check-name `(init_config, [instances...])`, plus the
warning log for conflicting init configs. -/
def get_configs {I J : Type} [DecidableEq I]
    (confOf : String → String → Except PyExn (Option (Conf I J)))
    (containers : List DockerContainer) :
    Except PyExn (List (String × I × List J) × List String) :=
  getConfigsAux confOf containers ([], [])

/-- Whether a template value is a string leaf. -/
def isStrVal : JVal → Bool
  | .str _ => true
  | _ => false

/-- Whether an `Except` computation returned normally. -/
def exOk {ε α : Type} : Except ε α → Bool
  | .ok _ => true
  | .error _ => false

/-- On a string value the render loop never raises and the value stays a
string. -/
lemma renderLoop_str_ok (vars : VarSet) (key : String) :
    ∀ (toks : List String) (s : String) (ws : List String),
      ∃ s' ws', renderLoop vars key toks (JVal.str s) ws = .ok (JVal.str s', ws')
  | [], s, ws => ⟨s, ws, rfl⟩
  | tok :: rest, s, ws => by
    cases hr : resolveVar vars (stripPercents tok) with
    | some val =>
      simpa [renderLoop, hr, jreplace] using
        renderLoop_str_ok vars key rest (pyReplace s tok val) ws
    | none =>
      simpa [renderLoop, hr, jreplace] using
        renderLoop_str_ok vars key rest s (ws ++ [key])

/-- Rendering one template dict succeeds when every field whose string form
contains a placeholder token is a string leaf. -/
lemma renderTpl_ok (vars : VarSet) :
    ∀ tpl : JObj,
      (∀ kv ∈ tpl, findPlaceholders (pyStr kv.2) ≠ [] → isStrVal kv.2 = true) →
      ∃ out, renderTpl vars tpl = .ok out
  | [], _ => ⟨([], []), rfl⟩
  | (k, v) :: rest, h => by
    have hrest := renderTpl_ok vars rest (fun kv hkv => h kv (List.mem_cons_of_mem _ hkv))
    obtain ⟨out, hout⟩ := hrest
    cases hfp : findPlaceholders (pyStr v) with
    | nil =>
      refine ⟨((k, v) :: out.1, out.2), ?_⟩
      simp [renderTpl, hfp, renderLoop, hout]
    | cons t ts =>
      have hstr : isStrVal v = true := by
        have := h (k, v) (List.mem_cons_self _ _)
        simp only [hfp] at this
        exact this (by simp)
      cases v with
      | str s =>
        obtain ⟨s', ws', hloop⟩ := renderLoop_str_ok vars k (t :: ts) s []
        refine ⟨((k, JVal.str s') :: out.1, ws' ++ out.2), ?_⟩
        rw [renderTpl, hfp, hloop, hout]
      | num n => simp [isStrVal] at hstr
      | arr xs => simp [isStrVal] at hstr
      | obj fs => simp [isStrVal] at hstr

/-- Rendering returns the field lists with the same keys in the same
order: only values are rewritten. -/
lemma renderTpl_keys (vars : VarSet) :
    ∀ (tpl tpl' : JObj) (ws : List String),
      renderTpl vars tpl = .ok (tpl', ws) →
      tpl'.map Prod.fst = tpl.map Prod.fst
  | [], tpl', ws, h => by
    simp only [renderTpl] at h
    cases h
    rfl
  | (k, v) :: rest, tpl', ws, h => by
    rw [renderTpl] at h
    cases hloop : renderLoop vars k (findPlaceholders (pyStr v)) v [] with
    | error e => rw [hloop] at h; cases h
    | ok p =>
      rw [hloop] at h
      cases hrest : renderTpl vars rest with
      | error e => rw [hrest] at h; cases h
      | ok q =>
        rw [hrest] at h
        cases h
        simpa using renderTpl_keys vars rest q.1 q.2 (by rw [hrest])

/-- C1 (code_bug): the spec's renderer replaces an unresolved placeholder
with the empty string; the source's `tpl[key].replace(var, '')` discards
its result, so the placeholder survives.  First conjunct: the spec's
positive example (`host`/`port` both resolve) renders as claimed.  Second
conjunct: the failing input — template `{"host": "%%host%%"}` with an
empty variable set — keeps `%%host%%` in the field (emitting the warning)
instead of producing the empty string. -/
theorem render_template_drops_empty_substitution :
    render_template []
        [("host", JVal.str "%%host%%"), ("port", JVal.str "%%port%%")]
        [("host", some "10.0.0.5"), ("port", some "6379")] =
      .ok ([], [("host", JVal.str "10.0.0.5"), ("port", JVal.str "6379")], [])
  ∧ render_template [] [("host", JVal.str "%%host%%")] [] =
      .ok ([], [("host", JVal.str "%%host%%")], ["host"]) :=
  ⟨rfl, rfl⟩

/-- C2 counterexample: rendering is not total.  A placeholder token inside
a non-string field value — here the instance template
`{"tags": ["%%host%%"]}` — is found by the regex scan over `str(tpl[key])`,
and the subsequent `tpl[key].replace` raises `AttributeError` because a
list has no `replace` method. -/
theorem render_template_raises_on_list_value :
    render_template [] [("tags", JVal.arr [JVal.str "%%host%%"])] [] =
      .error .attributeError := rfl

/-- C2 amended: rendering is total on template pairs in which every field
whose string form contains a placeholder token is a string leaf — for such
templates `render` always returns an `(init_config, instance)` result,
including when placeholders remain unresolved. -/
theorem render_template_total_on_string_leaves
    (init inst : JObj) (vars : VarSet)
    (hi : ∀ kv ∈ init, findPlaceholders (pyStr kv.2) ≠ [] → isStrVal kv.2 = true)
    (ht : ∀ kv ∈ inst, findPlaceholders (pyStr kv.2) ≠ [] → isStrVal kv.2 = true) :
    ∃ out, render_template init inst vars = .ok out := by
  obtain ⟨oi, hoi⟩ := renderTpl_ok vars init hi
  obtain ⟨ot, hot⟩ := renderTpl_ok vars inst ht
  exact ⟨(oi.1, ot.1, oi.2 ++ ot.2), by rw [render_template, hoi, hot]⟩

/-- Witness for the amended C2 theorem at a concrete template pair: an
unresolved placeholder and a numeric field do not make rendering fail. -/
theorem render_template_total_on_string_leaves_witness :
    ∃ out,
      render_template [("min_collection_interval", JVal.num 20)]
        [("host", JVal.str "%%host%%")] [] = .ok out :=
  render_template_total_on_string_leaves
    [("min_collection_interval", JVal.num 20)]
    [("host", JVal.str "%%host%%")] []
    (by
      intro kv hkv h
      simp only [List.mem_singleton] at hkv
      subst hkv
      exact absurd (by decide) h)
    (by
      intro kv hkv _
      simp only [List.mem_singleton] at hkv
      subst hkv
      rfl)

/-- C9 counterexample: rendering does modify the template structures given
to it.  The source substitutes in place and returns the same dicts, so
after `render` the instance template's field holds `"10.0.0.5"` — the
placeholder is no longer present. -/
theorem render_template_mutates_input :
    render_template [] [("host", JVal.str "%%host%%")] [("host", some "10.0.0.5")] =
      .ok ([], [("host", JVal.str "10.0.0.5")], [])
  ∧ [("host", JVal.str "10.0.0.5")] ≠ [("host", JVal.str "%%host%%")] :=
  ⟨rfl, by simp⟩

/-- C9 amended: rendering rewrites the field values of the dicts it is
given (which it returns, aliasing its arguments) but leaves the field
names and their order unchanged; per-container freshness comes from
deserializing a new template per container, not from copying inside the
renderer. -/
theorem render_template_preserves_keys
    (init inst : JObj) (vars : VarSet) (i t : JObj) (w : List String)
    (h : render_template init inst vars = .ok (i, t, w)) :
    i.map Prod.fst = init.map Prod.fst ∧ t.map Prod.fst = inst.map Prod.fst := by
  rw [render_template] at h
  cases hi : renderTpl vars init with
  | error e => rw [hi] at h; cases h
  | ok p =>
    rw [hi] at h
    cases ht : renderTpl vars inst with
    | error e => rw [ht] at h; cases h
    | ok q =>
      rw [ht] at h
      cases h
      exact ⟨renderTpl_keys vars init p.1 p.2 (by rw [hi]),
             renderTpl_keys vars inst q.1 q.2 (by rw [ht])⟩

/-- Witness for the amended C9 theorem at a concrete render call. -/
theorem render_template_preserves_keys_witness :
    [("a", JVal.str "x")].map Prod.fst = [("a", JVal.str "x")].map Prod.fst ∧
    [("b", JVal.str "q")].map Prod.fst = [("b", JVal.str "%%p%%")].map Prod.fst :=
  render_template_preserves_keys
    [("a", JVal.str "x")] [("b", JVal.str "%%p%%")] [("p", some "q")]
    [("a", JVal.str "x")] [("b", JVal.str "q")] [] rfl

/-- Whether the auto-config catalog is usable for an image: when the image
maps to a check whose class exists, its auto-conf carries at least one
instance (the collaborator contract of `get_auto_conf`). -/
def catalogHasInstances (cat : Catalog) (image : String) : Bool :=
  match assocLookup AUTO_CONF_IMAGES image with
  | none => true
  | some cn => !cat.checkClass cn || !(cat.autoConf cn).instances.isEmpty

/-- Under the catalog contract, `_get_auto_config` never raises. -/
lemma get_auto_config_isOk (cat : Catalog) (image : String)
    (h : catalogHasInstances cat image = true) :
    exOk (get_auto_config cat image) = true := by
  rw [get_auto_config]
  rw [catalogHasInstances] at h
  cases hm : assocLookup AUTO_CONF_IMAGES image with
  | none => rfl
  | some cn =>
    rw [hm] at h
    cases hc : cat.checkClass cn with
    | false => simp [hc, exOk]
    | true =>
      simp only [hc, Bool.not_true, Bool.false_or, Bool.not_eq_true',
        List.isEmpty_eq_false] at h
      cases hi : (cat.autoConf cn).instances with
      | nil => exact absurd hi h
      | cons i0 rest => simp [hc, exOk, hi]

/-- C3: with `auto_conf` false, a `KeyNotFound` or a timeout raised while
reading the three per-image keys makes `get_check_tpl` fall back to the
auto-config catalog lookup (and, under the catalog contract, return
normally rather than raise); any other exception makes it return `None`
without consulting the catalog (the conclusion holds for every catalog,
so a catalog entry for the image is never used). -/
theorem get_check_tpl_error_handling
    (store : String → ReadOutcome) (cat : Catalog) (dir image : String) :
    (((tryReadTpl store dir image).1 = .error .keyNotFound ∨
       (tryReadTpl store dir image).1 = .error .timeoutError) →
      (get_check_tpl store cat dir image false).1 = get_auto_config cat image ∧
      (catalogHasInstances cat image = true →
        exOk (get_check_tpl store cat dir image false).1 = true))
  ∧ ((tryReadTpl store dir image).1 = .error .otherError →
      (get_check_tpl store cat dir image false).1 = .ok none) := by
  rcases he : tryReadTpl store dir image with ⟨r, reads⟩
  constructor
  · intro h
    have hr : r = .error .keyNotFound ∨ r = .error .timeoutError := h
    have hbranch : (get_check_tpl store cat dir image false).1 =
        get_auto_config cat image := by
      rcases hr with hr | hr <;> simp [get_check_tpl, he, hr]
    exact ⟨hbranch, fun hcat => hbranch ▸ get_auto_config_isOk cat image hcat⟩
  · intro h
    have hr : r = .error .otherError := h
    simp [get_check_tpl, he, hr]

/-- Witness for C3 at concrete stores: a store whose reads all raise
`KeyNotFound` (the image has no catalog check class, so the fallback
yields `None`), and a store whose reads raise some other error. -/
theorem get_check_tpl_error_handling_witness :
    (get_check_tpl (fun _ => ReadOutcome.keyNotFound)
        ⟨fun _ => false, fun _ => ⟨none, []⟩⟩
        "/datadog/check_configs" "redis" false).1 = .ok none
  ∧ (get_check_tpl (fun _ => ReadOutcome.otherError)
        ⟨fun _ => true, fun _ => ⟨none, [JVal.obj []]⟩⟩
        "/datadog/check_configs" "redis" false).1 = .ok none := by
  constructor
  · exact ((get_check_tpl_error_handling (fun _ => ReadOutcome.keyNotFound)
      ⟨fun _ => false, fun _ => ⟨none, []⟩⟩
      "/datadog/check_configs" "redis").1 (Or.inl rfl)).1.trans rfl
  · exact (get_check_tpl_error_handling (fun _ => ReadOutcome.otherError)
      ⟨fun _ => true, fun _ => ⟨none, [JVal.obj []]⟩⟩
      "/datadog/check_configs" "redis").2 rfl

/-- C4: with `auto_conf` true no store key is read, and the result is the
catalog's triple — `None` for an image outside `AUTO_CONF_IMAGES` or one
whose check has no class, and otherwise the check name with the
stringified auto-conf `init_config` and first instance. -/
theorem get_check_tpl_auto_conf_no_store_read
    (store : String → ReadOutcome) (cat : Catalog) (dir image : String) :
    (get_check_tpl store cat dir image true).2 = []
  ∧ (assocLookup AUTO_CONF_IMAGES image = none →
      (get_check_tpl store cat dir image true).1 = .ok none)
  ∧ (∀ cn, assocLookup AUTO_CONF_IMAGES image = some cn →
      cat.checkClass cn = false →
      (get_check_tpl store cat dir image true).1 = .ok none)
  ∧ (∀ cn i0 rest, assocLookup AUTO_CONF_IMAGES image = some cn →
      cat.checkClass cn = true → (cat.autoConf cn).instances = i0 :: rest →
      (get_check_tpl store cat dir image true).1 =
        .ok (some (cn, dumpsOpt (cat.autoConf cn).init_config, jsonDumps i0))) := by
  refine ⟨rfl, ?_, ?_, ?_⟩
  · intro h
    simp [get_check_tpl, get_auto_config, h]
  · intro cn h hc
    simp [get_check_tpl, get_auto_config, h, hc]
  · intro cn i0 rest h hc hi
    simp [get_check_tpl, get_auto_config, h, hc, hi]

/-- Witness for C4: the known image `redis` with a populated catalog, and
an unknown image, against a store that would raise if it were ever read. -/
theorem get_check_tpl_auto_conf_no_store_read_witness :
    (get_check_tpl (fun _ => ReadOutcome.otherError)
        ⟨fun _ => true, fun _ => ⟨some (JVal.obj []), [JVal.obj [("host", JVal.str "%%host%%")]]⟩⟩
        "/datadog/check_configs" "redis" true).2 = []
  ∧ (get_check_tpl (fun _ => ReadOutcome.otherError)
        ⟨fun _ => true, fun _ => ⟨some (JVal.obj []), [JVal.obj [("host", JVal.str "%%host%%")]]⟩⟩
        "/datadog/check_configs" "redis" true).1 =
      .ok (some ("redisdb", "\x7b\x7d", "\x7b\"host\": \"%%host%%\"\x7d"))
  ∧ (get_check_tpl (fun _ => ReadOutcome.otherError)
        ⟨fun _ => true, fun _ => ⟨some (JVal.obj []), [JVal.obj [("host", JVal.str "%%host%%")]]⟩⟩
        "/datadog/check_configs" "mysql" true).1 = .ok none := by
  refine ⟨(get_check_tpl_auto_conf_no_store_read _ _ _ _).1, ?_, ?_⟩
  · exact ((get_check_tpl_auto_conf_no_store_read (fun _ => ReadOutcome.otherError)
      ⟨fun _ => true, fun _ => ⟨some (JVal.obj []), [JVal.obj [("host", JVal.str "%%host%%")]]⟩⟩
      "/datadog/check_configs" "redis").2.2.2 "redisdb"
      (JVal.obj [("host", JVal.str "%%host%%")]) [] rfl rfl rfl).trans rfl
  · exact (get_check_tpl_auto_conf_no_store_read (fun _ => ReadOutcome.otherError)
      ⟨fun _ => true, fun _ => ⟨some (JVal.obj []), [JVal.obj [("host", JVal.str "%%host%%")]]⟩⟩
      "/datadog/check_configs" "mysql").2.1 rfl

/-- C6: explicit-override resolution is all-or-nothing per source.  When
the env-derived dict carries a `check_name`, every explicit lookup reads
exclusively from it (whatever the labels hold); otherwise a `check_name`
among the label-derived entries selects the labels dict for every lookup;
otherwise every explicit lookup yields `None`. -/
theorem explicit_variable_precedence (conf : ContainerConfig) (ev : List (String × String))
    (henv : buildEnvVars conf.Env = .ok ev) :
    ((assocLookup ev "check_name").isSome = true →
      ∀ var, get_explicit_variable conf var = .ok (assocLookup ev var))
  ∧ (assocLookup ev "check_name" = none →
      (assocLookup (buildLabelVars conf.Labels) "check_name").isSome = true →
      ∀ var, get_explicit_variable conf var =
        .ok (assocLookup (buildLabelVars conf.Labels) var))
  ∧ (assocLookup ev "check_name" = none →
      assocLookup (buildLabelVars conf.Labels) "check_name" = none →
      ∀ var, get_explicit_variable conf var = .ok none) := by
  refine ⟨?_, ?_, ?_⟩
  · intro h var
    simp [get_explicit_variable, get_config_space, henv, h]
  · intro h hl var
    simp [get_explicit_variable, get_config_space, henv, h, hl]
  · intro h hl var
    simp [get_explicit_variable, get_config_space, henv, h, hl]

/-- Witness for C6: a container with `check_name` overrides in both
sources resolves `host` from the env-derived set only. -/
theorem explicit_variable_precedence_witness :
    get_explicit_variable
      ⟨["datadog_check_name=foo", "datadog_host=envhost"],
       [("datadog_check_name", "bar"), ("datadog_host", "labelhost")]⟩ "host" =
      .ok (some "envhost") :=
  ((explicit_variable_precedence
      ⟨["datadog_check_name=foo", "datadog_host=envhost"],
       [("datadog_check_name", "bar"), ("datadog_host", "labelhost")]⟩
      [("check_name", "foo"), ("host", "envhost")] rfl).1 rfl "host").trans rfl

/-- The env comprehension only ever raises `IndexError`. -/
lemma parseEnvEntry_error (v : String) (e : PyExn)
    (h : parseEnvEntry v = some (.error e)) : e = .indexError := by
  rw [parseEnvEntry] at h
  by_cases hp : pyStartsWith ((pySplit v "=").headD "") "datadog_" = true
  · simp only [hp, if_true] at h
    cases hg : (pySplit v "=").get? 1 with
    | some val => rw [hg] at h; cases h
    | none => rw [hg] at h; cases h; rfl
  · simp only [Bool.not_eq_true] at hp
    simp only [hp, Bool.false_eq_true, if_false] at h
    cases h

/-- A prefixed entry with no `=` parses to a raised `IndexError`. -/
lemma parseEnvEntry_bad (v : String)
    (h1 : pyStartsWith ((pySplit v "=").headD "") "datadog_" = true)
    (h2 : (pySplit v "=").get? 1 = none) :
    parseEnvEntry v = some (.error .indexError) := by
  rw [parseEnvEntry]
  simp only [h1, if_true, h2]

/-- A bad env entry anywhere in the list makes the env comprehension raise
`IndexError`. -/
lemma buildEnvVarsAux_error :
    ∀ (env : List String) (acc : List (String × String)),
      (∃ v ∈ env, pyStartsWith ((pySplit v "=").headD "") "datadog_" = true ∧
        (pySplit v "=").get? 1 = none) →
      buildEnvVarsAux env acc = .error .indexError
  | [], _, h => by simp at h
  | v :: rest, acc, h => by
    rw [buildEnvVarsAux]
    cases hp : parseEnvEntry v with
    | none =>
      rcases h with ⟨v0, hv0, hv0bad⟩
      rcases List.mem_cons.mp hv0 with rfl | hmem
      · rw [parseEnvEntry_bad v0 hv0bad.1 hv0bad.2] at hp
        cases hp
      · exact buildEnvVarsAux_error rest acc ⟨v0, hmem, hv0bad⟩
    | some r =>
      cases r with
      | error e => rw [parseEnvEntry_error v e hp]
      | ok kv =>
        rcases h with ⟨v0, hv0, hv0bad⟩
        rcases List.mem_cons.mp hv0 with rfl | hmem
        · rw [parseEnvEntry_bad v0 hv0bad.1 hv0bad.2] at hp
          cases hp
        · exact buildEnvVarsAux_error rest (dictInsert acc kv.1 kv.2)
            ⟨v0, hmem, hv0bad⟩

/-- C10 counterexample: the claim says an env entry with no `=` (or a bare
`datadog_` key) makes the parsing raise.  An entry without the `datadog_`
prefix is skipped by the comprehension filter even when it has no `=`, and
an entry `datadog_=x` whose key is exactly the bare prefix parses to the
empty effective key — both containers yield `None`, with no exception. -/
theorem config_space_tolerates_bad_looking_entries :
    get_config_space ⟨["foo"], []⟩ = .ok none
  ∧ get_config_space ⟨["datadog_=x"], []⟩ = .ok none :=
  ⟨rfl, rfl⟩

/-- C10 amended: building the config space is not total, but the raising
inputs are exactly the env entries whose key (the part before the first
`=`) starts with `datadog_` while the entry has no `=` at all: for any
container with such an entry, `_get_config_space` raises `IndexError`. -/
theorem config_space_index_error (conf : ContainerConfig)
    (h : ∃ v ∈ conf.Env, pyStartsWith ((pySplit v "=").headD "") "datadog_" = true ∧
      (pySplit v "=").get? 1 = none) :
    get_config_space conf = .error .indexError := by
  rw [get_config_space, buildEnvVars, buildEnvVarsAux_error conf.Env [] h]

/-- Witness for the amended C10 theorem: the prefixed, `=`-less entry
`datadog_foo` raises. -/
theorem config_space_index_error_witness :
    get_config_space ⟨["datadog_foo"], []⟩ = .error .indexError :=
  config_space_index_error ⟨["datadog_foo"], []⟩
    ⟨"datadog_foo", by simp, by decide, by decide⟩

/-- Whether a container status matches the target container id, i.e. the
comparison `c_id == status.get('containerID', '').split('//')[1]` succeeds. -/
def matchesStatus (cid : Option String) (st : ContainerStatus) : Bool :=
  match statusCid st with
  | some s => decide (cid = some s)
  | none => false

/-- Whether a pod is scanned (has a `podIP`) and one of its container
statuses matches the target container id. -/
def podMatches (cid : Option String) (pod : Pod) : Bool :=
  pod.status.podIP.isSome && pod.status.containerStatuses.any (matchesStatus cid)

/-- Well-formedness of a pod list: every status of every pod that carries a
`podIP` has a container id containing `//` (the kubelet's
`engine://hash` form), so the `split('//')[1]` access is defined. -/
def wfPods (pods : List Pod) : Bool :=
  pods.all (fun pod =>
    !pod.status.podIP.isSome ||
      pod.status.containerStatuses.all (fun st => (statusCid st).isSome))

/-- The inner status scan with well-formed ids never raises: it returns
the pod's IP when some status matches and the accumulator otherwise. -/
lemma scanStatuses_eq (cid : Option String) (ip : String) :
    ∀ (sts : List ContainerStatus) (acc : Option String),
      sts.all (fun st => (statusCid st).isSome) = true →
      scanStatuses cid ip sts acc =
        .ok (if sts.any (matchesStatus cid) then some ip else acc)
  | [], acc, _ => by simp [scanStatuses]
  | st :: rest, acc, h => by
    rw [List.all_cons, Bool.and_eq_true] at h
    obtain ⟨hst, hrest⟩ := h
    cases hcid : statusCid st with
    | none => rw [hcid] at hst; cases hst
    | some s =>
      simp only [scanStatuses, hcid]
      rw [scanStatuses_eq cid ip rest _ hrest]
      by_cases hm : cid = some s
      · simp [List.any_cons, matchesStatus, hcid, hm]
      · simp [List.any_cons, matchesStatus, hcid, hm]

/-- The pod loop with a well-formed pod list never raises and computes the
fold of the per-pod updates. -/
lemma getHostPods_eq (cid : Option String) :
    ∀ (pods : List Pod) (acc : Option String),
      wfPods pods = true →
      getHostPods cid pods acc =
        .ok (pods.foldl (fun a pod =>
          match pod.status.podIP with
          | none => a
          | some ip =>
            if pod.status.containerStatuses.any (matchesStatus cid) then some ip
            else a) acc)
  | [], acc, _ => by simp [getHostPods]
  | pod :: rest, acc, h => by
    rw [wfPods, List.all_cons, Bool.and_eq_true] at h
    obtain ⟨hpod, hrest⟩ := h
    have hrest' : wfPods rest = true := hrest
    cases hip : pod.status.podIP with
    | none =>
      simp only [getHostPods, hip, List.foldl_cons]
      exact getHostPods_eq cid rest acc hrest'
    | some ip =>
      rw [hip] at hpod
      simp only [Option.isSome_some, Bool.not_true, Bool.false_or] at hpod
      simp only [getHostPods, hip, List.foldl_cons,
        scanStatuses_eq cid ip pod.status.containerStatuses acc hpod]
      exact getHostPods_eq cid rest _ hrest'

/-- A fold over pods none of which match leaves the accumulator alone. -/
lemma foldl_no_match (cid : Option String) :
    ∀ (pods : List Pod) (acc : Option String),
      (∀ q ∈ pods, podMatches cid q = false) →
      pods.foldl (fun a pod =>
        match pod.status.podIP with
        | none => a
        | some ip =>
          if pod.status.containerStatuses.any (matchesStatus cid) then some ip
          else a) acc = acc
  | [], acc, _ => rfl
  | pod :: rest, acc, h => by
    have hpod := h pod (List.mem_cons_self _ _)
    have hrest := fun q hq => h q (List.mem_cons_of_mem _ hq)
    cases hip : pod.status.podIP with
    | none =>
      simp only [List.foldl_cons, hip]
      exact foldl_no_match cid rest acc hrest
    | some ip =>
      rw [podMatches, hip, Option.isSome_some, Bool.true_and] at hpod
      simp only [List.foldl_cons, hip, hpod, Bool.false_eq_true, if_false]
      exact foldl_no_match cid rest acc hrest

/-- C7: with no direct network address, host extraction scans the kubelet
pod list.  Over a well-formed pod list: when no pod with a `podIP` has a
matching container status, the result is `None` (undefined, not a raised
error); when exactly one pod matches, the result is that pod's IP. -/
theorem get_host_kubelet_fallback (inspect : InspectInfo) (podList : PodList)
    (hip : inspect.networkIP = none) (hwf : wfPods podList.items = true) :
    ((∀ pod ∈ podList.items, podMatches inspect.cid pod = false) →
      get_host inspect podList = .ok none)
  ∧ (∀ l₁ p l₂ ip, podList.items = l₁ ++ p :: l₂ →
      p.status.podIP = some ip →
      p.status.containerStatuses.any (matchesStatus inspect.cid) = true →
      (∀ q ∈ l₁, podMatches inspect.cid q = false) →
      (∀ q ∈ l₂, podMatches inspect.cid q = false) →
      get_host inspect podList = .ok (some ip)) := by
  have hmain : get_host inspect podList =
      getHostPods inspect.cid podList.items none := by
    rw [get_host, hip]
    rfl
  constructor
  · intro h
    rw [hmain, getHostPods_eq inspect.cid podList.items none hwf,
      foldl_no_match inspect.cid podList.items none h]
  · intro l₁ p l₂ ip hsplit hpip hany h₁ h₂
    rw [hmain, getHostPods_eq inspect.cid podList.items none hwf, hsplit]
    rw [List.foldl_append, List.foldl_cons]
    rw [foldl_no_match inspect.cid l₁ none h₁]
    rw [hpip]
    simp only [hany, if_true]
    rw [foldl_no_match inspect.cid l₂ (some ip) h₂]

/-- Witness for C7: a pod list with a single matching pod yields that
pod's IP for a container whose inspect carries no address. -/
theorem get_host_kubelet_fallback_witness :
    get_host ⟨none, some "abc"⟩
      ⟨[⟨⟨some "10.1.2.3", [⟨some "docker://abc"⟩]⟩⟩]⟩ = .ok (some "10.1.2.3") :=
  (get_host_kubelet_fallback ⟨none, some "abc"⟩
      ⟨[⟨⟨some "10.1.2.3", [⟨some "docker://abc"⟩]⟩⟩]⟩ rfl (by decide)).2
    [] ⟨⟨some "10.1.2.3", [⟨some "docker://abc"⟩]⟩⟩ [] "10.1.2.3"
    rfl rfl (by decide) (by simp) (by simp)

/-- The successful per-container conf triples of one pass, in observation
order (containers whose resolution yields `None` contribute nothing). -/
def confsVals {I J : Type} (confOf : String → String → Except PyExn (Option (Conf I J)))
    (containers : List DockerContainer) : List (Conf I J) :=
  containers.filterMap (fun c =>
    match confOf c.id (imageName c) with
    | .ok o => o
    | .error _ => none)

/-- What one map entry should hold after folding a run of same-name conf
triples over a previous entry state. -/
def aggSpec {I J : Type} : Option (I × List J) → List (Conf I J) → Option (I × List J)
  | none, [] => none
  | none, t :: ts => some (t.2.1, t.2.2 :: ts.map (fun s => s.2.2))
  | some (i, insts), l => some (i, insts ++ l.map (fun s => s.2.2))

/-- Folding no further confs changes nothing. -/
lemma aggSpec_nil {I J : Type} : ∀ prev : Option (I × List J), aggSpec prev [] = prev
  | none => rfl
  | some (i, insts) => by simp [aggSpec]

/-- Lookup distributes over append, first list winning. -/
lemma assocLookup_append {β : Type} (l1 l2 : List (String × β)) (k : String) :
    assocLookup (l1 ++ l2) k =
      match assocLookup l1 k with
      | some v => some v
      | none => assocLookup l2 k := by
  induction l1 with
  | nil => simp [assocLookup]
  | cons hd tl ih =>
    obtain ⟨k', v'⟩ := hd
    by_cases hk : k' = k
    · simp [assocLookup, hk]
    · simp [assocLookup, hk, ih]

/-- Appending an instance to the looked-up entry. -/
lemma assocLookup_appendInst_same {I J : Type} (cn : String) (inst : J) :
    ∀ (m : List (String × I × List J)) (i : I) (insts : List J),
      assocLookup m cn = some (i, insts) →
      assocLookup (appendInst cn inst m) cn = some (i, insts ++ [inst])
  | [], i, insts, h => by cases h
  | (k, iv) :: rest, i, insts, h => by
    rw [assocLookup] at h
    by_cases hk : k = cn
    · subst hk
      rw [if_pos rfl] at h
      injection h with h2
      subst h2
      rw [appendInst, if_pos (rfl : ((k, i, insts) : String × I × List J).1 = k),
        assocLookup, if_pos (rfl : ((k, i, insts) : String × I × List J).1 = k)]
    · rw [if_neg hk] at h
      rw [appendInst]
      simp only [if_neg hk]
      rw [assocLookup, if_neg hk]
      exact assocLookup_appendInst_same cn inst rest i insts h

/-- Appending an instance for one check name leaves other entries alone. -/
lemma assocLookup_appendInst_other {I J : Type} (cn cnq : String) (inst : J)
    (hne : ¬ cn = cnq) :
    ∀ m : List (String × I × List J),
      assocLookup (appendInst cn inst m) cnq = assocLookup m cnq
  | [] => rfl
  | (k, iv) :: rest => by
    rw [appendInst]
    by_cases hk : k = cn
    · have hkq : ¬ k = cnq := fun hcontra => hne (hk.symm.trans hcontra)
      rw [if_pos hk]
      rw [assocLookup, assocLookup, if_neg hkq, if_neg hkq]
      exact assocLookup_appendInst_other cn cnq inst hne rest
    · rw [if_neg hk]
      rw [assocLookup, assocLookup]
      by_cases hq : k = cnq
      · rw [if_pos hq, if_pos hq]
      · rw [if_neg hq, if_neg hq]
        exact assocLookup_appendInst_other cn cnq inst hne rest

/-- The loop invariant of `get_configs`: after folding the remaining
containers over an accumulator, each check name's entry is the `aggSpec`
fold of its previous state and the same-name conf triples observed. -/
lemma getConfigsAux_lookup {I J : Type} [DecidableEq I]
    (confOf : String → String → Except PyExn (Option (Conf I J))) :
    ∀ (containers : List DockerContainer) (m : List (String × I × List J))
      (w : List String) (m' : List (String × I × List J)) (w' : List String),
      getConfigsAux confOf containers (m, w) = .ok (m', w') →
      ∀ cn, assocLookup m' cn =
        aggSpec (assocLookup m cn)
          ((confsVals confOf containers).filter (fun t => t.1 = cn))
  | [], m, w, m', w', h, cn => by
    rw [getConfigsAux] at h
    cases h
    rw [confsVals, List.filterMap_nil, List.filter_nil, aggSpec_nil]
  | c :: rest, m, w, m', w', h, cn => by
    rw [getConfigsAux] at h
    cases hc : confOf c.id (imageName c) with
    | error e => rw [hc] at h; cases h
    | ok o =>
      rw [hc] at h
      cases o with
      | none =>
        have hcv : confsVals confOf (c :: rest) = confsVals confOf rest := by
          simp [confsVals, List.filterMap_cons, hc]
        rw [hcv]
        exact getConfigsAux_lookup confOf rest m w m' w' h cn
      | some conf =>
        have hcv : confsVals confOf (c :: rest) = conf :: confsVals confOf rest := by
          simp [confsVals, List.filterMap_cons, hc]
        have ih := getConfigsAux_lookup confOf rest
          (addConf (m, w) conf).1 (addConf (m, w) conf).2 m' w' h cn
        rw [hcv]
        by_cases hkey : conf.1 = cn
        · subst hkey
          rw [List.filter_cons, if_pos (by simp)]
          cases hprev : assocLookup m conf.1 with
          | none =>
            have haddc : (addConf (m, w) conf).1 =
                m ++ [(conf.1, conf.2.1, [conf.2.2])] := by
              simp [addConf, hprev]
            rw [haddc] at ih
            have hone : assocLookup (m ++ [(conf.1, conf.2.1, [conf.2.2])]) conf.1 =
                some (conf.2.1, [conf.2.2]) := by
              rw [assocLookup_append, hprev]
              show assocLookup [(conf.1, conf.2.1, [conf.2.2])] conf.1 = _
              rw [assocLookup, if_pos rfl]
            rw [hone] at ih
            rw [ih]
            simp [aggSpec]
          | some p =>
            obtain ⟨i, insts⟩ := p
            have haddc : (addConf (m, w) conf).1 = appendInst conf.1 conf.2.2 m := by
              simp [addConf, hprev]
            rw [haddc] at ih
            rw [assocLookup_appendInst_same conf.1 conf.2.2 m i insts hprev] at ih
            rw [ih]
            simp [aggSpec]
        · rw [List.filter_cons, if_neg (by simp [hkey])]
          have hsame : assocLookup (addConf (m, w) conf).1 cn = assocLookup m cn := by
            cases hprev : assocLookup m conf.1 with
            | none =>
              simp only [addConf, hprev]
              rw [assocLookup_append]
              cases hq : assocLookup m cn with
              | some v => rfl
              | none => simp [assocLookup, hkey]
            | some p =>
              obtain ⟨i, insts⟩ := p
              simp only [addConf, hprev]
              exact assocLookup_appendInst_other conf.1 cn conf.2.2 hkey m
          rw [hsame] at ih
          exact ih

/-- C5: when a discovery pass completes, the aggregated map sends each
check name to the init config of the first conf observed with that name
together with all its instances in observation order.  The second conjunct
exercises the conflict path concretely: two containers sharing a check
name with differing init configs yield one entry keeping the first-seen
init config, both instances in order, and exactly one warning. -/
theorem get_configs_aggregation {I J : Type} [DecidableEq I]
    (confOf : String → String → Except PyExn (Option (Conf I J)))
    (containers : List DockerContainer)
    (m : List (String × I × List J)) (w : List String)
    (h : get_configs confOf containers = .ok (m, w)) :
    (∀ cn, assocLookup m cn =
      match (confsVals confOf containers).filter (fun t => t.1 = cn) with
      | [] => none
      | t :: ts => some (t.2.1, t.2.2 :: ts.map (fun s => s.2.2)))
  ∧ get_configs (fun cid _ =>
        if cid = "c1" then .ok (some ("check", (1 : Nat), (10 : Nat)))
        else .ok (some ("check", 2, 20)))
      [⟨"img", "c1", []⟩, ⟨"img", "c2", []⟩] =
      .ok ([("check", 1, [10, 20])], ["check"]) := by
  constructor
  · intro cn
    have hlk := getConfigsAux_lookup confOf containers [] [] m w h cn
    rw [hlk]
    cases (confsVals confOf containers).filter (fun t => t.1 = cn) with
    | nil => rfl
    | cons t ts => rfl
  · rfl

/-- Witness for C5 applied at a concrete completed pass. -/
theorem get_configs_aggregation_witness :
    assocLookup [("check", (1 : Nat), [(10 : Nat), 20])] "check" =
      match (confsVals (fun cid _ =>
          if cid = "c1" then .ok (some ("check", (1 : Nat), (10 : Nat)))
          else .ok (some ("check", 2, 20)))
        [⟨"img", "c1", []⟩, ⟨"img", "c2", []⟩]).filter (fun t => t.1 = "check") with
      | [] => none
      | t :: ts => some (t.2.1, t.2.2 :: ts.map (fun s => s.2.2)) :=
  (get_configs_aggregation
    (fun cid _ =>
      if cid = "c1" then .ok (some ("check", (1 : Nat), (10 : Nat)))
      else .ok (some ("check", 2, 20)))
    [⟨"img", "c1", []⟩, ⟨"img", "c2", []⟩]
    [("check", 1, [10, 20])] ["check"] rfl).1 "check"

/-- C8 counterexample: an exception raised while configuring the first
container (any raising path of `_get_check_config`: docker inspect,
variable extraction, rendering) propagates out of `get_configs` — the
pass aborts and the second, well-behaved container is never configured. -/
theorem get_configs_aborts_on_exception :
    get_configs (fun cid _ =>
        if cid = "c1" then .error .attributeError
        else .ok (some ("check2", (1 : Nat), (2 : Nat))))
      [⟨"img", "c1", []⟩, ⟨"img", "c2", []⟩] = .error .attributeError := rfl

/-- C8 amended: a container whose resolution yields no configuration
(`_get_check_config` returning `None`, as store read errors and template
decode errors do) is skipped and the pass continues identically on the
remaining containers; but a container whose processing raises aborts the
whole pass with that exception. -/
theorem get_configs_failure_behavior {I J : Type} [DecidableEq I]
    (confOf : String → String → Except PyExn (Option (Conf I J)))
    (c : DockerContainer) (rest : List DockerContainer) :
    (confOf c.id (imageName c) = .ok none →
      get_configs confOf (c :: rest) = get_configs confOf rest)
  ∧ (∀ e, confOf c.id (imageName c) = .error e →
      get_configs confOf (c :: rest) = .error e) := by
  constructor
  · intro h
    simp only [get_configs, getConfigsAux, h]
  · intro e h
    simp only [get_configs, getConfigsAux, h]

/-- Witness for the amended C8 theorem at concrete passes. -/
theorem get_configs_failure_behavior_witness :
    get_configs (fun _ _ => (.ok none : Except PyExn (Option (Conf Nat Nat))))
      [⟨"img", "c0", []⟩] =
      get_configs (fun _ _ => (.ok none : Except PyExn (Option (Conf Nat Nat)))) []
  ∧ get_configs (fun _ _ => (.error .indexError : Except PyExn (Option (Conf Nat Nat))))
      [⟨"img", "c0", []⟩] = .error .indexError :=
  ⟨(get_configs_failure_behavior (fun _ _ => .ok none) ⟨"img", "c0", []⟩ []).1 rfl,
   (get_configs_failure_behavior (fun _ _ => .error .indexError)
      ⟨"img", "c0", []⟩ []).2 .indexError rfl⟩
